import Mathlib

/-!
Verification of the RAG note-intelligence pipeline of the financial-buddy
repository (src/rag_pipeline.py and the two pipeline endpoints of
src/main.py).

Text is modelled as `List Char`.  The external collaborators (embedding
model initialisation, vector-index build, language-model generation,
URL fetching/extraction, index teardown) are modelled as an `Env` record
of fallible operations: `Except.error e` models a raised Python exception
carrying message `e`.  Each embedded operation returns its Python result
(`Except.error` meaning the exception propagated out of the function)
together with the chronological list of collaborator events it performed,
so that claims about which collaborators were invoked, with which inputs,
and how often, can be stated and proved.
-/

/-- ASCII approximation of Python str.strip whitespace set. -/
def isPySpace (c : Char) : Bool :=
  c = ' ' || c = '\t' || c = '\n' || c = '\r' || c = '\x0b' || c = '\x0c'

/-- Model of Python str.strip(): remove leading and trailing whitespace. -/
def pyStrip (s : List Char) : List Char :=
  ((s.dropWhile isPySpace).reverse.dropWhile isPySpace).reverse

/-- Model of Python str.lower() (character-wise lowering). -/
def pyLower (s : List Char) : List Char :=
  s.map Char.toLower

/-- Collaborator events, in the order the Python code performs them.
`embedInit` is the FastEmbedEmbeddings() construction, `buildIndex docs`
a successful Chroma.from_documents call on the given documents,
`generate input` a chain .invoke(input) attempt (the payload is the value
passed to .invoke), `fetch url` the requests.get + BeautifulSoup text
extraction attempt, and `teardown` a vectorstore.delete_collection() attempt. -/
inductive Event where
  | embedInit : Event
  | buildIndex : List (List Char) → Event
  | generate : List Char → Event
  | fetch : List Char → Event
  | teardown : Event
deriving DecidableEq

/-- The collaborator environment: each operation may raise (Except.error). -/
structure Env where
  embedInit : Except (List Char) Unit
  buildIndex : List (List Char) → Except (List Char) Unit
  generate : List Char → Except (List Char) (List Char)
  fetch : List Char → Except (List Char) (List Char)
  teardown : Except (List Char) Unit

def countEmbed (t : List Event) : Nat :=
  t.countP (fun e => match e with | Event.embedInit => true | _ => false)

def countBuild (t : List Event) : Nat :=
  t.countP (fun e => match e with | Event.buildIndex _ => true | _ => false)

def countGen (t : List Event) : Nat :=
  t.countP (fun e => match e with | Event.generate _ => true | _ => false)

def countTeardown (t : List Event) : Nat :=
  t.countP (fun e => match e with | Event.teardown => true | _ => false)

/-- The inputs handed to generation attempts, in order. -/
def genInputs (t : List Event) : List (List Char) :=
  t.filterMap (fun e => match e with | Event.generate s => some s | _ => none)

/-- Modelled from the spec: the Text Chunker.  The repository configures
LangChain RecursiveCharacterTextSplitter(chunk_size=1000, chunk_overlap=100),
whose splitting code is third-party and absent from the repository, so the
chunker is modelled from the spec: fragments of length at most 1000,
consecutive fragments of one document overlapping by 100 characters, and a
document not exceeding 1000 characters yielding exactly one fragment equal
to the whole document.  `fuel` is a structural-recursion bound; each step
consumes 900 characters, so fuel = length of the document suffices. -/
def chunkDocGo (fuel : Nat) (s : List Char) : List (List Char) :=
  match fuel with
  | 0 => [s]
  | fuel + 1 =>
    if s.length ≤ 1000 then [s]
    else s.take 1000 :: chunkDocGo fuel (s.drop 900)

/-- Modelled from the spec: chunk one document (see chunkDocGo). -/
def chunkDoc (s : List Char) : List (List Char) :=
  chunkDocGo s.length s

/-- Modelled from the spec: chunk a document set; each document is chunked
separately, so fragments never cross document boundaries. -/
def chunkDocs (docs : List (List Char)) : List (List Char) :=
  (docs.map chunkDoc).flatten

/-- Two elements occur consecutively, in this order, in a list. -/
def Adjacent {α : Type} (l : List α) (a b : α) : Prop :=
  ∃ l1 l2, l = l1 ++ a :: b :: l2

-- Fixed strings of src/rag_pipeline.py and src/main.py.

def jigyasaEmptyMsg : List Char := "The notebook is empty.".toList

def contradictionMarker : List Char := "CONTRADICTION:".toList

def verifierErrMsg : List Char :=
  "Error: The Verifier Agent encountered a problem.".toList

def summaryEmptyMsg : List Char :=
  "Your notebook is empty. Please add some notes before trying to get a smart summary.".toList

def couldNotExtractMsg : List Char :=
  "Error: Could not extract readable text from this URL.".toList

def fetchFailMsgHead : List Char :=
  "Error: Failed to fetch or parse the URL. Details: ".toList

/-- Embedding of get_jigyasa_response (src/rag_pipeline.py lines 146-158).
No try/except anywhere: a raise from embedding construction, index build,
chain invocation or delete_collection propagates; delete_collection runs
only after a successful invoke. -/
def get_jigyasa_response (env : Env) (question : List Char)
    (notes : List (List Char)) :
    Except (List Char) (List Char) × List Event :=
  if notes.isEmpty then (Except.ok jigyasaEmptyMsg, [])
  else
    let splits := chunkDocs notes
    match env.embedInit with
    | Except.error e => (Except.error e, [Event.embedInit])
    | Except.ok _ =>
      match env.buildIndex splits with
      | Except.error e => (Except.error e, [Event.embedInit])
      | Except.ok _ =>
        match env.generate question with
        | Except.error e =>
          (Except.error e,
           [Event.embedInit, Event.buildIndex splits, Event.generate question])
        | Except.ok answer =>
          match env.teardown with
          | Except.error e =>
            (Except.error e,
             [Event.embedInit, Event.buildIndex splits,
              Event.generate question, Event.teardown])
          | Except.ok _ =>
            (Except.ok answer,
             [Event.embedInit, Event.buildIndex splits,
              Event.generate question, Event.teardown])

/-- Embedding of check_for_contradictions (src/rag_pipeline.py lines 160-184).
Embedding construction and index build happen before the try block, so their
raises propagate; the chain invocation is inside try/except (generation
failure becomes the verifier error string); the finally block always attempts
delete_collection after a build, swallowing teardown errors. -/
def check_for_contradictions (env : Env) (new_note : List Char)
    (existing_notes : List (List Char)) :
    Except (List Char) (Option (List Char)) × List Event :=
  if existing_notes.isEmpty then (Except.ok none, [])
  else
    let splits := chunkDocs existing_notes
    match env.embedInit with
    | Except.error e => (Except.error e, [Event.embedInit])
    | Except.ok _ =>
      match env.buildIndex splits with
      | Except.error e => (Except.error e, [Event.embedInit])
      | Except.ok _ =>
        let tried : Option (List Char) :=
          match env.generate new_note with
          | Except.ok response =>
            if !response.isEmpty &&
                contradictionMarker.isPrefixOf (pyStrip response)
            then some (pyStrip response)
            else none
          | Except.error _ => some verifierErrMsg
        (Except.ok tried,
         [Event.embedInit, Event.buildIndex splits,
          Event.generate new_note, Event.teardown])

/-- Embedding of get_contextual_summary (src/rag_pipeline.py lines 186-204).
The fetch/parse/extract step and the empty-text check are inside try/except
(a raise becomes a user-facing error string); the subsequent embedding,
index build (on the UNCHUNKED notes), invocation with the article truncated
to 8000 characters, and delete_collection are unprotected. -/
def get_contextual_summary (env : Env) (url : List Char)
    (existing_notes : List (List Char)) :
    Except (List Char) (List Char) × List Event :=
  if existing_notes.isEmpty then (Except.ok summaryEmptyMsg, [])
  else
    match env.fetch url with
    | Except.error e =>
      (Except.ok (fetchFailMsgHead ++ e), [Event.fetch url])
    | Except.ok article =>
      if article.isEmpty then (Except.ok couldNotExtractMsg, [Event.fetch url])
      else
        match env.embedInit with
        | Except.error e => (Except.error e, [Event.fetch url, Event.embedInit])
        | Except.ok _ =>
          match env.buildIndex existing_notes with
          | Except.error e =>
            (Except.error e, [Event.fetch url, Event.embedInit])
          | Except.ok _ =>
            match env.generate (article.take 8000) with
            | Except.error e =>
              (Except.error e,
               [Event.fetch url, Event.embedInit,
                Event.buildIndex existing_notes,
                Event.generate (article.take 8000)])
            | Except.ok summary =>
              match env.teardown with
              | Except.error e =>
                (Except.error e,
                 [Event.fetch url, Event.embedInit,
                  Event.buildIndex existing_notes,
                  Event.generate (article.take 8000), Event.teardown])
              | Except.ok _ =>
                (Except.ok summary,
                 [Event.fetch url, Event.embedInit,
                  Event.buildIndex existing_notes,
                  Event.generate (article.take 8000), Event.teardown])

/-- Embedding of structure_financial_data (src/rag_pipeline.py lines 206-210).
A single unprotected chain invocation on the raw text. -/
def structure_financial_data (env : Env) (raw_text : List Char) :
    Except (List Char) (List Char) × List Event :=
  match env.generate raw_text with
  | Except.error e => (Except.error e, [Event.generate raw_text])
  | Except.ok s => (Except.ok s, [Event.generate raw_text])

/-- Model of Python newline-join of a list of strings. -/
def joinNewline : List (List Char) → List Char
  | [] => []
  | [s] => s
  | s :: rest => s ++ '\n' :: joinNewline rest

/-- Embedding of get_socratic_guidance (src/rag_pipeline.py lines 212-217).
Notes are newline-joined into notes_context; a single unprotected chain
invocation (the generation payload records the joined notes followed by
the financial data). -/
def get_socratic_guidance (env : Env) (notes : List (List Char))
    (financial_data : List Char) :
    Except (List Char) (List Char) × List Event :=
  let notes_context := joinNewline notes
  match env.generate (notes_context ++ financial_data) with
  | Except.error e =>
    (Except.error e, [Event.generate (notes_context ++ financial_data)])
  | Except.ok s =>
    (Except.ok s, [Event.generate (notes_context ++ financial_data)])

-- src/main.py endpoint models.

def greetingsList : List (List Char) :=
  ["hello".toList, "hi".toList, "hey".toList]

def greetingAnswer : List Char :=
  "Hello! How can I help you with your research?".toList

def askEmptyMsg : List Char :=
  "My notebook is empty. Please add some notes first.".toList

def needTwoMsg : List Char :=
  "You need at least two notes to check for contradictions.".toList

def noContraFoundMsg : List Char :=
  "No contradictions found among your recent notes.".toList

/-- Embedding of the /ask endpoint (src/main.py lines 86-94): greeting
interception on the lowercased stripped question, then the empty-notebook
shortcut, then delegation to get_jigyasa_response. -/
def ask_question (env : Env) (question : List Char)
    (notesDb : List (List Char)) :
    Except (List Char) (List Char) × List Event :=
  let userInput := pyStrip (pyLower question)
  if userInput ∈ greetingsList then (Except.ok greetingAnswer, [])
  else if notesDb.isEmpty then (Except.ok askEmptyMsg, [])
  else get_jigyasa_response env question notesDb

-- Concrete collaborator environments used to instantiate theorems.

def envAllOk : Env :=
  { embedInit := Except.ok ()
    buildIndex := fun _ => Except.ok ()
    generate := fun _ => Except.ok "NO_CONTRADICTION".toList
    fetch := fun _ => Except.ok "article text".toList
    teardown := Except.ok () }

def envGenContra : Env :=
  { envAllOk with
    generate := fun _ => Except.ok "CONTRADICTION: figures conflict.".toList }

def envGenFail : Env :=
  { envAllOk with generate := fun _ => Except.error "model timeout".toList }

def envFetchFail : Env :=
  { envAllOk with fetch := fun _ => Except.error "connection refused".toList }

def envFetchEmptyText : Env :=
  { envAllOk with fetch := fun _ => Except.ok [] }

/-- Embedding of the /check-contradictions endpoint (src/main.py lines
96-112): requires at least two notes, checks the most recent note against
all previous ones, and maps a falsy verifier result (None or the empty
string) to the fixed no-contradictions message. -/
def run_contradiction_check (env : Env) (notesDb : List (List Char)) :
    Except (List Char) (List Char) × List Event :=
  if notesDb.length < 2 then (Except.ok needTwoMsg, [])
  else
    let latest := notesDb.getLastD []
    let previous := notesDb.dropLast
    match check_for_contradictions env latest previous with
    | (Except.error e, t) => (Except.error e, t)
    | (Except.ok w, t) =>
      (Except.ok
        (match w with
         | some s => if s.isEmpty then noContraFoundMsg else s
         | none => noContraFoundMsg), t)

-- Theorems.

theorem marker_ne_nil_of_isPrefixOf {resp : List Char}
    (h : contradictionMarker.isPrefixOf (pyStrip resp) = true) :
    resp.isEmpty = false := by
  cases resp with
  | nil => exact absurd h (by decide)
  | cons a t => rfl

/-- C3: in the contradiction check, a successful generation result is
returned (stripped) exactly when its stripped form starts with the literal
prefix CONTRADICTION:; any other output — including NO_CONTRADICTION and
malformed text — yields the no-contradiction sentinel none, not an error. -/
theorem C3_contradiction_parse (env : Env) (n : List Char)
    (ns : List (List Char)) (hns : ns ≠ [])
    (he : env.embedInit = Except.ok ())
    (hb : env.buildIndex (chunkDocs ns) = Except.ok ())
    (resp : List Char) (hg : env.generate n = Except.ok resp) :
    (contradictionMarker.isPrefixOf (pyStrip resp) = true →
      (check_for_contradictions env n ns).1 = Except.ok (some (pyStrip resp)))
    ∧ (contradictionMarker.isPrefixOf (pyStrip resp) = false →
      (check_for_contradictions env n ns).1 = Except.ok none) := by
  obtain ⟨a, t, rfl⟩ := List.exists_cons_of_ne_nil hns
  constructor
  · intro hpre
    have hne := marker_ne_nil_of_isPrefixOf hpre
    simp [check_for_contradictions, he, hb, hg, hne, hpre]
  · intro hpre
    simp [check_for_contradictions, he, hb, hg, hpre]

/-- C3 witness: with a generation stub returning a CONTRADICTION:-prefixed
string, the check returns that stripped string. -/
theorem C3_witness :
    (check_for_contradictions envGenContra "new note".toList
        ["existing note".toList]).1
      = Except.ok (some (pyStrip "CONTRADICTION: figures conflict.".toList)) :=
  (C3_contradiction_parse envGenContra _ _ (by decide) rfl rfl _ rfl).1
    (by decide)

/-- C4: a generation failure in the contradiction check yields the fixed
verifier error string — an ok result (not a propagated raise), distinct from
the none sentinel and from every CONTRADICTION:-prefixed report. -/
theorem C4_verifier_failure (env : Env) (n : List Char)
    (ns : List (List Char)) (hns : ns ≠ [])
    (he : env.embedInit = Except.ok ())
    (hb : env.buildIndex (chunkDocs ns) = Except.ok ())
    (err : List Char) (hg : env.generate n = Except.error err) :
    (check_for_contradictions env n ns).1 = Except.ok (some verifierErrMsg)
    ∧ (some verifierErrMsg ≠ (none : Option (List Char)))
    ∧ ∀ s, contradictionMarker.isPrefixOf s = true → verifierErrMsg ≠ s := by
  obtain ⟨a, t, rfl⟩ := List.exists_cons_of_ne_nil hns
  refine ⟨by simp [check_for_contradictions, he, hb, hg], by simp, ?_⟩
  intro s hp heq
  rw [← heq] at hp
  exact absurd hp (by decide)

/-- C4 witness: with a raising generation stub, the check returns the
verifier error string. -/
theorem C4_witness :
    (check_for_contradictions envGenFail "n".toList ["e".toList]).1
      = Except.ok (some verifierErrMsg) :=
  (C4_verifier_failure envGenFail _ _ (by decide) rfl rfl _ rfl).1

/-- C5: with an empty notes list, synthesis returns the fixed
notebook-is-empty message and the contradiction check returns the
no-contradiction sentinel, both with an empty collaborator trace (zero
embedding and zero generation invocations). -/
theorem C5_empty_input_shortcut (env : Env) (q n : List Char) :
    get_jigyasa_response env q [] = (Except.ok jigyasaEmptyMsg, [])
    ∧ check_for_contradictions env n [] = (Except.ok none, [])
    ∧ countEmbed (get_jigyasa_response env q []).2 = 0
    ∧ countGen (get_jigyasa_response env q []).2 = 0
    ∧ countGen (check_for_contradictions env n []).2 = 0 :=
  ⟨rfl, rfl, rfl, rfl, rfl⟩

/-- C6: with non-empty notes, a fetch/parse failure in the contextual
summary returns the user-facing error string and an empty article text
returns the could-not-extract string; in both cases the trace holds only
the fetch event — zero generation attempts and zero index builds. -/
theorem C6_summary_fetch_guard (env : Env) (url : List Char)
    (ns : List (List Char)) (hns : ns ≠ []) :
    (∀ e, env.fetch url = Except.error e →
      get_contextual_summary env url ns
        = (Except.ok (fetchFailMsgHead ++ e), [Event.fetch url]))
    ∧ (env.fetch url = Except.ok [] →
      get_contextual_summary env url ns
        = (Except.ok couldNotExtractMsg, [Event.fetch url]))
    ∧ countGen [Event.fetch url] = 0
    ∧ countBuild [Event.fetch url] = 0 := by
  obtain ⟨a, t, rfl⟩ := List.exists_cons_of_ne_nil hns
  refine ⟨?_, ?_, rfl, rfl⟩
  · intro e hf
    simp [get_contextual_summary, hf]
  · intro hf
    simp [get_contextual_summary, hf]

/-- C6 witness: concrete failing-fetch and empty-text environments. -/
theorem C6_witness :
    get_contextual_summary envFetchFail "http://x".toList ["note".toList]
      = (Except.ok (fetchFailMsgHead ++ "connection refused".toList),
         [Event.fetch "http://x".toList])
    ∧ get_contextual_summary envFetchEmptyText "http://x".toList
        ["note".toList]
      = (Except.ok couldNotExtractMsg, [Event.fetch "http://x".toList]) :=
  ⟨(C6_summary_fetch_guard envFetchFail _ _ (by decide)).1 _ rfl,
   (C6_summary_fetch_guard envFetchEmptyText _ _ (by decide)).2.1 rfl⟩

/-- C7: in the contextual summary, the value handed to the generation
attempt is exactly the first 8000 characters of the extracted article: the
trace's generation inputs equal [article.take 8000], whose length is
min 8000 (length of the article). -/
theorem C7_truncation (env : Env) (url article : List Char)
    (ns : List (List Char)) (hns : ns ≠ [])
    (hf : env.fetch url = Except.ok article) (hart : article ≠ [])
    (he : env.embedInit = Except.ok ())
    (hb : env.buildIndex ns = Except.ok ()) :
    genInputs (get_contextual_summary env url ns).2 = [article.take 8000]
    ∧ (article.take 8000).length = min 8000 article.length := by
  obtain ⟨a, t, rfl⟩ := List.exists_cons_of_ne_nil hns
  have hne : article.isEmpty = false := by
    cases article with
    | nil => exact absurd rfl hart
    | cons c u => rfl
  refine ⟨?_, List.length_take 8000 article⟩
  cases hg : env.generate (article.take 8000) with
  | error e => simp [get_contextual_summary, hf, hne, he, hb, hg, genInputs]
  | ok s =>
    cases ht : env.teardown with
    | error e2 =>
      simp [get_contextual_summary, hf, hne, he, hb, hg, ht, genInputs]
    | ok _ => simp [get_contextual_summary, hf, hne, he, hb, hg, ht, genInputs]

/-- C7 witness: concrete all-succeeding environment. -/
theorem C7_witness :
    genInputs (get_contextual_summary envAllOk "u".toList ["note".toList]).2
      = ["article text".toList.take 8000] :=
  (C7_truncation envAllOk _ _ _ (by decide) rfl (by decide) rfl rfl).1

/-- C1 counterexample: with a generation stub that raises, the synthesis
operation builds the index once and never tears it down — the claim's
teardown-on-every-exit-path fails on get_jigyasa_response. -/
theorem C1_cex :
    countBuild (get_jigyasa_response envGenFail "q".toList
      ["note".toList]).2 = 1
    ∧ countTeardown (get_jigyasa_response envGenFail "q".toList
      ["note".toList]).2 = 0 := by
  exact ⟨rfl, rfl⟩

/-- C1 (amended): teardown count equals build count on every exit path of
the contradiction check (its finally block), but for synthesis Q&A and the
contextual summary only on paths that return normally; when generation
raises there, the built index is leaked (see the counterexample). -/
theorem C1_teardown_amended (env : Env) :
    (∀ n ns, countTeardown (check_for_contradictions env n ns).2
        = countBuild (check_for_contradictions env n ns).2)
    ∧ (∀ q ns r, (get_jigyasa_response env q ns).1 = Except.ok r →
        countTeardown (get_jigyasa_response env q ns).2
          = countBuild (get_jigyasa_response env q ns).2)
    ∧ (∀ url ns r, (get_contextual_summary env url ns).1 = Except.ok r →
        countTeardown (get_contextual_summary env url ns).2
          = countBuild (get_contextual_summary env url ns).2) := by
  refine ⟨?_, ?_, ?_⟩
  · intro n ns
    cases hi : ns.isEmpty with
    | true => simp [check_for_contradictions, hi, countTeardown, countBuild]
    | false =>
      cases he : env.embedInit with
      | error e =>
        simp [check_for_contradictions, hi, he, countTeardown, countBuild]
      | ok v =>
        cases hb : env.buildIndex (chunkDocs ns) with
        | error e =>
          simp [check_for_contradictions, hi, he, hb, countTeardown,
            countBuild]
        | ok w =>
          simp [check_for_contradictions, hi, he, hb, countTeardown,
            countBuild]
  · intro q ns r h
    cases hi : ns.isEmpty with
    | true => simp [get_jigyasa_response, hi, countTeardown, countBuild]
    | false =>
      cases he : env.embedInit with
      | error e => simp [get_jigyasa_response, hi, he] at h
      | ok v =>
        cases hb : env.buildIndex (chunkDocs ns) with
        | error e => simp [get_jigyasa_response, hi, he, hb] at h
        | ok w =>
          cases hg : env.generate q with
          | error e => simp [get_jigyasa_response, hi, he, hb, hg] at h
          | ok s =>
            cases ht : env.teardown with
            | error e => simp [get_jigyasa_response, hi, he, hb, hg, ht] at h
            | ok z =>
              simp [get_jigyasa_response, hi, he, hb, hg, ht, countTeardown,
                countBuild]
  · intro url ns r h
    cases hi : ns.isEmpty with
    | true => simp [get_contextual_summary, hi, countTeardown, countBuild]
    | false =>
      cases hf : env.fetch url with
      | error e =>
        simp [get_contextual_summary, hi, hf, countTeardown, countBuild]
      | ok article =>
        cases ha : article.isEmpty with
        | true =>
          simp [get_contextual_summary, hi, hf, ha, countTeardown, countBuild]
        | false =>
          cases he : env.embedInit with
          | error e => simp [get_contextual_summary, hi, hf, ha, he] at h
          | ok v =>
            cases hb : env.buildIndex ns with
            | error e =>
              simp [get_contextual_summary, hi, hf, ha, he, hb] at h
            | ok w =>
              cases hg : env.generate (article.take 8000) with
              | error e =>
                simp [get_contextual_summary, hi, hf, ha, he, hb, hg] at h
              | ok s =>
                cases ht : env.teardown with
                | error e =>
                  simp [get_contextual_summary, hi, hf, ha, he, hb, hg,
                    ht] at h
                | ok z =>
                  simp [get_contextual_summary, hi, hf, ha, he, hb, hg, ht,
                    countTeardown, countBuild]

/-- C1 witness: concrete environments exercising all three operations. -/
theorem C1_witness :
    countTeardown (check_for_contradictions envGenFail "n".toList
        ["e".toList]).2
      = countBuild (check_for_contradictions envGenFail "n".toList
        ["e".toList]).2
    ∧ countTeardown (get_jigyasa_response envAllOk "q".toList
        ["note".toList]).2
      = countBuild (get_jigyasa_response envAllOk "q".toList
        ["note".toList]).2
    ∧ countTeardown (get_contextual_summary envAllOk "u".toList
        ["note".toList]).2
      = countBuild (get_contextual_summary envAllOk "u".toList
        ["note".toList]).2 :=
  ⟨(C1_teardown_amended envGenFail).1 _ _,
   (C1_teardown_amended envAllOk).2.1 _ _ ("NO_CONTRADICTION".toList) rfl,
   (C1_teardown_amended envAllOk).2.2 _ _ ("NO_CONTRADICTION".toList) rfl⟩

/-- C2 counterexample: a raising generation collaborator propagates out of
structure_financial_data as an unhandled fault (an Except.error at the core
boundary), so the claim that every core operation returns a value fails. -/
theorem C2_cex :
    (structure_financial_data envGenFail "raw".toList).1
      = Except.error "model timeout".toList := by
  exact rfl

/-- C2 (amended): only two fault boundaries recover locally — the
contradiction check never propagates a generation (or teardown) fault, and
the contextual summary converts a fetch fault into an error string; the
other collaborator faults, such as a generation fault in the extraction
operation, propagate past the core boundary unchanged. -/
theorem C2_fault_containment_amended (env : Env) (n url raw : List Char)
    (ns : List (List Char)) :
    (env.embedInit = Except.ok () →
      env.buildIndex (chunkDocs ns) = Except.ok () →
      ∃ v, (check_for_contradictions env n ns).1 = Except.ok v)
    ∧ (ns ≠ [] → ∀ e, env.fetch url = Except.error e →
      (get_contextual_summary env url ns).1
        = Except.ok (fetchFailMsgHead ++ e))
    ∧ (∀ e, env.generate raw = Except.error e →
      (structure_financial_data env raw).1 = Except.error e) := by
  refine ⟨?_, ?_, ?_⟩
  · intro he hb
    cases hi : ns.isEmpty with
    | true => exact ⟨none, by simp [check_for_contradictions, hi]⟩
    | false =>
      cases hg : env.generate n with
      | error e =>
        exact ⟨some verifierErrMsg,
          by simp [check_for_contradictions, hi, he, hb, hg]⟩
      | ok resp =>
        cases hc : (!resp.isEmpty &&
            contradictionMarker.isPrefixOf (pyStrip resp)) with
        | true =>
          exact ⟨some (pyStrip resp),
            by simp [check_for_contradictions, hi, he, hb, hg, hc]⟩
        | false =>
          exact ⟨none,
            by simp [check_for_contradictions, hi, he, hb, hg, hc]⟩
  · intro hns e hf
    obtain ⟨a, t, rfl⟩ := List.exists_cons_of_ne_nil hns
    simp [get_contextual_summary, hf]
  · intro e hg
    simp [structure_financial_data, hg]

/-- C2 witness: concrete environments for each amended conjunct. -/
theorem C2_witness :
    (∃ v, (check_for_contradictions envAllOk "n".toList ["e".toList]).1
      = Except.ok v)
    ∧ (get_contextual_summary envFetchFail "u".toList ["note".toList]).1
      = Except.ok (fetchFailMsgHead ++ "connection refused".toList)
    ∧ (structure_financial_data envGenFail "raw".toList).1
      = Except.error "model timeout".toList :=
  ⟨(C2_fault_containment_amended envAllOk "n".toList "u".toList "raw".toList
      ["e".toList]).1 rfl rfl,
   (C2_fault_containment_amended envFetchFail "n".toList "u".toList
      "raw".toList ["note".toList]).2.1 (by decide) _ rfl,
   (C2_fault_containment_amended envGenFail "n".toList "u".toList
      "raw".toList ["e".toList]).2.2 _ rfl⟩

/-- C9: the /ask endpoint answers a greeting (lowercased, stripped question
equal to hello, hi or hey) with the fixed greeting and an empty collaborator
trace regardless of the stored notes, and answers a non-greeting question on
an empty note store with the fixed empty-notebook message, never reaching
the synthesis operation. -/
theorem C9_ask_shortcuts (env : Env) (q : List Char)
    (notes : List (List Char)) :
    (pyStrip (pyLower q) ∈ greetingsList →
      ask_question env q notes = (Except.ok greetingAnswer, []))
    ∧ (pyStrip (pyLower q) ∉ greetingsList → notes = [] →
      ask_question env q notes = (Except.ok askEmptyMsg, [])) := by
  constructor
  · intro hg
    simp [ask_question, hg]
  · intro hg hn
    subst hn
    simp [ask_question, hg]

/-- C9 witness: a decorated greeting and a non-greeting on an empty store. -/
theorem C9_witness :
    ask_question envAllOk "  HeLLo ".toList ["note".toList]
      = (Except.ok greetingAnswer, [])
    ∧ ask_question envAllOk "what is WACC".toList []
      = (Except.ok askEmptyMsg, []) :=
  ⟨(C9_ask_shortcuts envAllOk _ _).1 (by decide),
   (C9_ask_shortcuts envAllOk _ _).2 (by decide) rfl⟩

/-- C10: the /check-contradictions endpoint returns the fixed at-least-two
message with an empty trace when fewer than two notes are stored; otherwise
it runs the verifier on exactly the most recent note against the chunks of
all previous notes (visible in the trace payloads), and maps the
no-contradiction sentinel to the fixed no-contradictions-found message. -/
theorem C10_contradiction_endpoint (env : Env) (db : List (List Char)) :
    (db.length < 2 →
      run_contradiction_check env db = (Except.ok needTwoMsg, []))
    ∧ (2 ≤ db.length →
      env.embedInit = Except.ok () →
      env.buildIndex (chunkDocs db.dropLast) = Except.ok () →
      ∀ resp, env.generate (db.getLastD []) = Except.ok resp →
      contradictionMarker.isPrefixOf (pyStrip resp) = false →
      run_contradiction_check env db
        = (Except.ok noContraFoundMsg,
           [Event.embedInit, Event.buildIndex (chunkDocs db.dropLast),
            Event.generate (db.getLastD []), Event.teardown])) := by
  constructor
  · intro h
    simp [run_contradiction_check, h]
  · intro hlen he hb resp hg hpre
    have hdl : db.dropLast.length = db.length - 1 := List.length_dropLast db
    have hne : db.dropLast.isEmpty = false := by
      cases hdb : db.dropLast with
      | nil => rw [hdb] at hdl; simp at hdl; omega
      | cons a t => rfl
    have hnlt : ¬ db.length < 2 := by omega
    rw [ List.getLastD_eq_getLast?] at hg
    simp [run_contradiction_check, hnlt, check_for_contradictions, hne, he,
      hb, hg, hpre]

/-- C10 witness: one-note store and a two-note store with a
NO_CONTRADICTION generation stub. -/
theorem C10_witness :
    run_contradiction_check envAllOk ["only".toList]
      = (Except.ok needTwoMsg, [])
    ∧ run_contradiction_check envAllOk ["first".toList, "second".toList]
      = (Except.ok noContraFoundMsg,
         [Event.embedInit,
          Event.buildIndex (chunkDocs ["first".toList, "second".toList].dropLast),
          Event.generate (["first".toList, "second".toList].getLastD []),
          Event.teardown]) :=
  ⟨(C10_contradiction_endpoint envAllOk ["only".toList]).1 (by decide),
   (C10_contradiction_endpoint envAllOk _).2 (by decide) rfl rfl _ rfl
     (by decide)⟩

theorem chunkDocGo_length_le (fuel : Nat) :
    ∀ s : List Char, s.length ≤ 1000 + 900 * fuel →
      ∀ f ∈ chunkDocGo fuel s, f.length ≤ 1000 := by
  induction fuel with
  | zero =>
    intro s hs f hf
    simp [chunkDocGo] at hf
    subst hf
    simpa using hs
  | succ fuel ih =>
    intro s hs f hf
    by_cases h : s.length ≤ 1000
    · simp [chunkDocGo, h] at hf
      subst hf
      exact h
    · simp [chunkDocGo, h] at hf
      cases hf with
      | inl h1 =>
        subst h1
        rw [List.length_take]
        exact min_le_left _ _
      | inr h2 =>
        refine ih (s.drop 900) ?_ f h2
        rw [List.length_drop]
        omega

theorem chunkDocGo_sub (fuel : Nat) :
    ∀ s f : List Char, f ∈ chunkDocGo fuel s →
      ∃ i n, f = (s.drop i).take n := by
  induction fuel with
  | zero =>
    intro s f hf
    simp [chunkDocGo] at hf
    exact ⟨0, f.length, by rw [hf]; simp⟩
  | succ fuel ih =>
    intro s f hf
    by_cases h : s.length ≤ 1000
    · simp [chunkDocGo, h] at hf
      exact ⟨0, f.length, by rw [hf]; simp⟩
    · simp [chunkDocGo, h] at hf
      cases hf with
      | inl h1 =>
        subst h1
        exact ⟨0, 1000, by simp⟩
      | inr h2 =>
        obtain ⟨i, n, hi⟩ := ih (s.drop 900) f h2
        exact ⟨900 + i, n, by rw [hi, List.drop_drop]⟩

theorem chunkDocGo_head_take (fuel : Nat) (s : List Char) :
    ∃ c t, chunkDocGo fuel s = c :: t ∧ c.take 100 = s.take 100 := by
  cases fuel with
  | zero => exact ⟨s, [], rfl, rfl⟩
  | succ fuel =>
    by_cases h : s.length ≤ 1000
    · exact ⟨s, [], by simp [chunkDocGo, h], rfl⟩
    · refine ⟨s.take 1000, chunkDocGo fuel (s.drop 900),
        by simp [chunkDocGo, h], ?_⟩
      rw [List.take_take]
      congr 1

theorem chunkDocGo_adjacent (fuel : Nat) :
    ∀ s a b, s.length ≤ 1000 + 900 * fuel →
      Adjacent (chunkDocGo fuel s) a b →
      a.length = 1000 ∧ a.drop 900 = b.take 100 := by
  induction fuel with
  | zero =>
    intro s a b hs hadj
    obtain ⟨l1, l2, h⟩ := hadj
    have hl := congrArg List.length h
    simp only [chunkDocGo, List.length_append, List.length_cons,
      List.length_nil] at hl
    omega
  | succ fuel ih =>
    intro s a b hs hadj
    obtain ⟨l1, l2, h⟩ := hadj
    by_cases hlen : s.length ≤ 1000
    · rw [show chunkDocGo (fuel + 1) s = [s] from by
        simp [chunkDocGo, hlen]] at h
      have hl := congrArg List.length h
      simp only [List.length_append, List.length_cons, List.length_nil] at hl
      omega
    · rw [show chunkDocGo (fuel + 1) s
          = s.take 1000 :: chunkDocGo fuel (s.drop 900) from by
        simp [chunkDocGo, hlen]] at h
      cases l1 with
      | nil =>
        simp only [List.nil_append] at h
        injection h with h1 h2
        obtain ⟨c, t, hct, hc100⟩ := chunkDocGo_head_take fuel (s.drop 900)
        rw [hct] at h2
        injection h2 with h3 h4
        subst h1
        constructor
        · rw [List.length_take]
          omega
        · rw [List.drop_take, ← h3, hc100]
      | cons x l1t =>
        injection h with h1 h2
        refine ih (s.drop 900) a b ?_ ⟨l1t, l2, h2⟩
        rw [List.length_drop]
        omega

/-- C8 (spec-modelled chunker): every fragment of a chunked document set has
length at most 1000 and is a contiguous substring of one of the input
documents (fragments never cross document boundaries); consecutive fragments
of one document have the non-final one of full length 1000 with its last 100
characters equal to the first 100 characters of its successor (the
configured overlap); and a document shorter than the maximum yields exactly
one fragment equal to the whole document. -/
theorem C8_chunker (docs : List (List Char)) (f : List Char) :
    (f ∈ chunkDocs docs →
      f.length ≤ 1000 ∧ ∃ d ∈ docs, ∃ i n, f = (d.drop i).take n)
    ∧ (∀ s a b, Adjacent (chunkDoc s) a b →
      a.length = 1000 ∧ a.drop 900 = b.take 100)
    ∧ (∀ s : List Char, s.length < 1000 → chunkDoc s = [s]) := by
  refine ⟨?_, ?_, ?_⟩
  · intro hf
    rw [chunkDocs, List.mem_flatten] at hf
    obtain ⟨l, hl, hfl⟩ := hf
    rw [List.mem_map] at hl
    obtain ⟨d, hd, rfl⟩ := hl
    refine ⟨chunkDocGo_length_le d.length d (by omega) f hfl, d, hd,
      chunkDocGo_sub d.length d f hfl⟩
  · intro s a b hadj
    exact chunkDocGo_adjacent s.length s a b (by omega) hadj
  · intro s hs
    have h1000 : s.length ≤ 1000 := Nat.le_of_lt hs
    cases s with
    | nil => rfl
    | cons c u =>
      show chunkDocGo (u.length + 1) (c :: u) = [c :: u]
      simp only [chunkDocGo]
      rw [if_pos h1000]

set_option maxRecDepth 20000 in
/-- C8 witness: a short document is one whole fragment of its source; an
1100-character document splits into a 1000-character fragment and a
200-character fragment overlapping by 100 characters. -/
theorem C8_chunker_witness :
    ("alpha".toList.length ≤ 1000
      ∧ ∃ d ∈ ["alpha".toList, "beta".toList], ∃ i n,
          "alpha".toList = (d.drop i).take n)
    ∧ ((List.replicate 1000 'a').length = 1000
      ∧ (List.replicate 1000 'a').drop 900 = (List.replicate 200 'a').take 100)
    ∧ chunkDoc "hi".toList = ["hi".toList] :=
  ⟨(C8_chunker ["alpha".toList, "beta".toList] "alpha".toList).1 (by decide),
   (C8_chunker [] []).2.1 (List.replicate 1100 'a') _ _ ⟨[], [], by rfl⟩,
   (C8_chunker [] []).2.2 "hi".toList (by decide)⟩
